import Mathlib

/-!
Shallow embedding of the acq-be parking-marketplace backend core:
booking creation with interval-conflict checking (BookingService, the
version at src/unnamed/part_013 lines 279-521), the payment reconciler
(PaymentStatusService and PaymentService.updateBookingStatus), the
webhook handler (PaymentController.handleWebhook) and the status poller
(PaymentService.pollPaymentStatus).

Times are modelled as integers (milliseconds since epoch, the value of
JavaScript Date.getTime()); money as rationals.  Prisma queries over the
relational store are modelled as operations on lists held in a `DB`
record; each awaited Prisma call is one atomic step on that state.
-/

namespace AcqBe

/-- Prisma enum ParkingStatus (migration 20251211040131). -/
inductive ParkingStatus
  | PENDING | APPROVED | REJECTED | INACTIVE
  deriving DecidableEq, Repr

/-- Prisma enum BookingStatus (migration 20251216102149). -/
inductive BookingStatus
  | PENDING | CONFIRMED | CANCELLED | COMPLETED
  deriving DecidableEq, Repr

/-- Prisma enum PaymentStatus: PENDING, SUCCEEDED, FAILED, CANCELLED. -/
inductive PaymentStatus
  | PENDING | SUCCEEDED | FAILED | CANCELLED
  deriving DecidableEq, Repr

/-- A parking spot row: the fields the booking core reads. -/
structure ParkingSpot where
  id : String
  ownerId : String
  pricePerHour : ℚ
  status : ParkingStatus
  deriving DecidableEq, Repr

/-- A booking row: the fields the booking/payment core reads or writes. -/
structure Booking where
  id : String
  parkingSpotId : String
  userId : String
  startTime : ℤ
  endTime : ℤ
  totalPrice : ℚ
  status : BookingStatus
  deriving DecidableEq, Repr

/-- A payment row: the fields the reconciliation core reads or writes. -/
structure Payment where
  id : String
  bookingId : String
  referenceNumber : String
  externalId : String
  status : PaymentStatus
  deriving DecidableEq, Repr

/-- One dispatched notification: `kind` is "owner" for the PMO e-mail
(sendBookingConfirmationEmail) and "guest" for the requester confirmation
(sendGuestConfirmationEmail). -/
structure Notification where
  kind : String
  bookingId : String
  deriving DecidableEq, Repr

/-- The relational store as seen by the core: parking spots, bookings,
payments, the processed-webhook-event table (`webhookEvent`), and the
trace of notification dispatch attempts. -/
structure DB where
  spots : List ParkingSpot
  bookings : List Booking
  payments : List Payment
  webhookEvents : List String
  notifications : List Notification
  deriving DecidableEq, Repr

/-- CreateBookingDto: the fields create() reads (times already parsed
to epoch milliseconds, as `new Date(dto.startTime)` does). -/
structure CreateBookingDto where
  parkingSpotId : String
  startTime : ℤ
  endTime : ℤ
  deriving DecidableEq, Repr

/-- Errors raised by BookingService.  The two BadRequestException
messages 'Booking is already cancelled' and 'Cannot cancel a completed
booking' are the spec's InvalidStateTransition and share one
constructor. -/
inductive BookingError
  | notFound
  | spotNotAvailable
  | ownSpot
  | invalidTimeRange
  | pastStartTime
  | conflict
  | notYourBooking
  | invalidStateTransition
  deriving DecidableEq, Repr

/-- JavaScript Math.round on a rational: floor(x + 1/2). -/
def jsRound (q : ℚ) : ℤ := ⌊q + 1/2⌋

/-- BookingService.create lines 341-343: hours = (end - start) ms /
(1000*60*60); totalPrice = Math.round(hours * pricePerHour * 100) / 100. -/
def computeTotalPrice (s e : ℤ) (pricePerHour : ℚ) : ℚ :=
  let hours : ℚ := ((e - s : ℤ) : ℚ) / 3600000
  (jsRound (hours * pricePerHour * 100) : ℚ) / 100

/-- The OR-of-three-ranges clause of the Prisma findFirst in
BookingService.create lines 320-333: (startTime ≤ s ∧ endTime > s) OR
(startTime < e ∧ endTime ≥ e) OR (startTime ≥ s ∧ endTime ≤ e). -/
def overlapsBooking (s e : ℤ) (b : Booking) : Bool :=
  (decide (b.startTime ≤ s) && decide (b.endTime > s))
  || (decide (b.startTime < e) && decide (b.endTime ≥ e))
  || (decide (b.startTime ≥ s) && decide (b.endTime ≤ e))

/-- The full where-clause of the findFirst in create lines 313-335:
same spot, status in {PENDING, CONFIRMED}, NOT status in
{CANCELLED, COMPLETED}, and the three-way range disjunction. -/
def activeOverlapFilter (spotId : String) (s e : ℤ) (b : Booking) : Bool :=
  b.parkingSpotId == spotId
  && (decide (b.status = .PENDING) || decide (b.status = .CONFIRMED))
  && !(decide (b.status = .CANCELLED) || decide (b.status = .COMPLETED))
  && overlapsBooking s e b

/-- The prisma.booking.findFirst of create lines 313-335. -/
def findOverlappingBooking (db : DB) (spotId : String) (s e : ℤ) :
    Option Booking :=
  db.bookings.find? (activeOverlapFilter spotId s e)

/-- The validation prefix of BookingService.create (lines 280-339): spot
lookup, approval check, self-booking check, time-order check, past-start
check and the overlap findFirst.  Returns the validated spot.  This is
everything create does before its prisma.booking.create await. -/
def createCheck (db : DB) (dto : CreateBookingDto) (userId : String)
    (now : ℤ) : Except BookingError ParkingSpot :=
  match db.spots.find? (fun sp => sp.id == dto.parkingSpotId) with
  | none => .error .notFound
  | some spot =>
    if spot.status ≠ .APPROVED then .error .spotNotAvailable
    else if spot.ownerId == userId then .error .ownSpot
    else if dto.startTime ≥ dto.endTime then .error .invalidTimeRange
    else if dto.startTime < now then .error .pastStartTime
    else if (findOverlappingBooking db dto.parkingSpotId
        dto.startTime dto.endTime).isSome then .error .conflict
    else .ok spot

/-- The prisma.booking.create await of create (lines 345-377): insert a
new PENDING booking with the computed total price. -/
def createInsert (db : DB) (dto : CreateBookingDto)
    (userId newId : String) (spot : ParkingSpot) : Booking × DB :=
  let b : Booking :=
    { id := newId
      parkingSpotId := dto.parkingSpotId
      userId := userId
      startTime := dto.startTime
      endTime := dto.endTime
      totalPrice := computeTotalPrice dto.startTime dto.endTime
        spot.pricePerHour
      status := .PENDING }
  (b, { db with bookings := db.bookings ++ [b] })

/-- BookingService.create lines 279-378: the check step followed by the
insert step.  `newId` stands for the generated row id. -/
def create (db : DB) (dto : CreateBookingDto) (userId : String)
    (now : ℤ) (newId : String) : Except BookingError (Booking × DB) :=
  match createCheck db dto userId now with
  | .error e => .error e
  | .ok spot => .ok (createInsert db dto userId newId spot)

/-- Lines 471-483 of cancel: if a payment row exists for the booking and
its status is PENDING, set it to CANCELLED; otherwise leave the store
alone. -/
def cancelPaymentIfPending (db : DB) (id : String) : DB :=
  match db.payments.find? (fun p => p.bookingId == id) with
  | some p =>
    if p.status = .PENDING then
      { db with payments := db.payments.map (fun q =>
          if q.id == p.id then { q with status := .CANCELLED } else q) }
    else db
  | none => db

/-- Lines 485-488 of cancel: the prisma.booking.update setting the booking
row's status to CANCELLED. -/
def setBookingCancelled (db : DB) (id : String) : DB :=
  { db with bookings := db.bookings.map (fun b =>
      if b.id == id then { b with status := .CANCELLED } else b) }

/-- BookingService.findOne (lines 421-454) as used by cancel: look the
booking up by id and return it only when the caller is its requester or
the spot's owner; `none` models the NotFoundException of both the
missing-row case and the visibility case. -/
def findOneVisible (db : DB) (id userId : String) : Option Booking :=
  match db.bookings.find? (fun b => b.id == id) with
  | none => none
  | some booking =>
    if booking.userId == userId ||
        (match db.spots.find?
            (fun sp => sp.id == booking.parkingSpotId) with
          | some sp => sp.ownerId == userId
          | none => false) then
      some booking
    else none

/-- BookingService.cancel (lines 456-489).  findOne (lookup plus
visibility check) then the two terminal-state guards; then, if a payment
row exists for the booking and is PENDING, it is set to CANCELLED; the
booking is set to CANCELLED.  An `Except.error` models a thrown
exception: nothing has been written when one is raised. -/
def cancel (db : DB) (id userId : String) : Except BookingError DB :=
  match findOneVisible db id userId with
  | none => .error .notFound
  | some booking =>
    if booking.userId ≠ userId then .error .notYourBooking
    else if booking.status = .CANCELLED then .error .invalidStateTransition
    else if booking.status = .COMPLETED then .error .invalidStateTransition
    else .ok (setBookingCancelled (cancelPaymentIfPending db id) id)

/-- The nested ternary of PaymentStatusService.updatePaymentStatusFromAPI
lines 26-33: SUCCEEDED/FAILED/CANCELLED pass through, anything else
(including PENDING) becomes PENDING. -/
def mapStatusPSS (s : String) : PaymentStatus :=
  if s == "SUCCEEDED" then .SUCCEEDED
  else if s == "FAILED" then .FAILED
  else if s == "CANCELLED" then .CANCELLED
  else .PENDING

/-- PaymentService.mapPaymentStatus (payment.service.ts lines 281-294):
switch over the four known strings, default PENDING.  Extensionally the
same map as `mapStatusPSS`. -/
def mapPaymentStatus (status : String) : PaymentStatus :=
  if status == "PENDING" then .PENDING
  else if status == "SUCCEEDED" then .SUCCEEDED
  else if status == "FAILED" then .FAILED
  else if status == "CANCELLED" then .CANCELLED
  else .PENDING

/-- The switch over paymentStatus in updateBookingStatus
(payment-status.service.ts lines 78-89 and identically
payment.service.ts lines 314-325): SUCCEEDED maps the booking to
CONFIRMED, FAILED and CANCELLED to CANCELLED, anything else returns
without touching the booking. -/
def bookingStatusFor (paymentStatus : String) : Option BookingStatus :=
  if paymentStatus == "SUCCEEDED" then some .CONFIRMED
  else if paymentStatus == "FAILED" then some .CANCELLED
  else if paymentStatus == "CANCELLED" then some .CANCELLED
  else none

/-- The booking drive updateBookingStatus, modelling both PaymentStatusService lines
53-104 and PaymentService lines 296-340 (their effect on the store and
on notification dispatch is identical): look the payment up by reference
number (absent payment: log and return); map the reported status (the
default branch returns with no booking write); update the booking row
unconditionally - there is no check of the booking's current status;
when the reported status is SUCCEEDED, invoke the owner (PMO) and guest
confirmation e-mail senders.  The returned Bool is false when the
booking row to update is missing, which makes prisma.booking.update
throw; the throw happens after the payment write already committed. -/
def updateBookingStatus (db : DB) (referenceNumber paymentStatus : String) :
    DB × Bool :=
  match db.payments.find?
      (fun p => p.referenceNumber == referenceNumber) with
  | none => (db, true)
  | some payment =>
    match bookingStatusFor paymentStatus with
    | none => (db, true)
    | some bst =>
      match db.bookings.find? (fun b => b.id == payment.bookingId) with
      | none => (db, false)
      | some _ =>
        let db1 := { db with bookings := db.bookings.map (fun b =>
            if b.id == payment.bookingId then { b with status := bst }
            else b) }
        if paymentStatus == "SUCCEEDED" then
          ({ db1 with notifications := db1.notifications ++
              [⟨"owner", payment.bookingId⟩, ⟨"guest", payment.bookingId⟩] },
           true)
        else (db1, true)

/-- PaymentStatusService.updatePaymentStatusFromAPI (lines 14-51):
write the mapped status onto the payment row, then drive the booking.
Any throw is caught and turned into success:false (the Bool), keeping
whatever writes already committed; a missing payment row makes
prisma.payment.update throw before anything is written. -/
def updatePaymentStatusFromAPI (db : DB)
    (referenceNumber paymentStatus : String) : DB × Bool :=
  match db.payments.find?
      (fun p => p.referenceNumber == referenceNumber) with
  | none => (db, false)
  | some _ =>
    let db1 := { db with payments := db.payments.map (fun p =>
        if p.referenceNumber == referenceNumber then
          { p with status := mapStatusPSS paymentStatus }
        else p) }
    updateBookingStatus db1 referenceNumber paymentStatus

/-- PaymentService.getPaymentStatus (lines 202-238) after a successful
external fetch reporting `fetchedStatus`: write the mapped status onto
the payment row, then updateBookingStatus.  Bool false models a thrown
error (missing payment row, or missing booking row inside
updateBookingStatus), which the caller's catch receives; writes already
made are kept. -/
def getPaymentStatus (db : DB) (referenceNumber fetchedStatus : String) :
    DB × Bool :=
  match db.payments.find?
      (fun p => p.referenceNumber == referenceNumber) with
  | none => (db, false)
  | some _ =>
    let db1 := { db with payments := db.payments.map (fun p =>
        if p.referenceNumber == referenceNumber then
          { p with status := mapPaymentStatus fetchedStatus }
        else p) }
    updateBookingStatus db1 referenceNumber fetchedStatus

/-- Outcome of one external status fetch inside the poll loop: a
reported status string, or a network error (the fetch itself threw). -/
inductive FetchOutcome
  | ok (status : String)
  | err
  deriving DecidableEq, Repr

/-- Result of pollPaymentStatus: final store, `some` terminal status or
`none` for the PollTimeout throw, and the list of waits (in seconds) the
loop performed, in order. -/
structure PollResult where
  db : DB
  result : Option String
  delays : List ℕ
  deriving DecidableEq, Repr

/-- The for-loop of PaymentService.pollPaymentStatus (lines 244-273),
with `remaining = maxAttempts - attempt` as fuel.  A successful fetch
runs getPaymentStatus; a terminal reported status returns immediately;
otherwise the loop waits min(2^attempt, 30) seconds.  A thrown error
(network failure, or getPaymentStatus throwing) is caught and waits a
fixed 5 seconds unless this was the last attempt.  Falling off the loop
is the PollTimeout throw (`result = none`). -/
def pollLoop (db : DB) (ref : String) (fetch : ℕ → FetchOutcome)
    (attempt remaining : ℕ) : PollResult :=
  match remaining with
  | 0 => ⟨db, none, []⟩
  | r + 1 =>
    match fetch attempt with
    | .ok s =>
      if (getPaymentStatus db ref s).2 then
        if s == "SUCCEEDED" || s == "FAILED" || s == "CANCELLED" then
          ⟨(getPaymentStatus db ref s).1, some s, []⟩
        else
          ⟨(pollLoop (getPaymentStatus db ref s).1 ref fetch
              (attempt + 1) r).db,
            (pollLoop (getPaymentStatus db ref s).1 ref fetch
              (attempt + 1) r).result,
            min (2 ^ attempt) 30 ::
              (pollLoop (getPaymentStatus db ref s).1 ref fetch
                (attempt + 1) r).delays⟩
      else
        if 1 ≤ r then
          ⟨(pollLoop (getPaymentStatus db ref s).1 ref fetch
              (attempt + 1) r).db,
            (pollLoop (getPaymentStatus db ref s).1 ref fetch
              (attempt + 1) r).result,
            5 :: (pollLoop (getPaymentStatus db ref s).1 ref fetch
              (attempt + 1) r).delays⟩
        else pollLoop (getPaymentStatus db ref s).1 ref fetch
          (attempt + 1) r
    | .err =>
      if 1 ≤ r then
        ⟨(pollLoop db ref fetch (attempt + 1) r).db,
          (pollLoop db ref fetch (attempt + 1) r).result,
          5 :: (pollLoop db ref fetch (attempt + 1) r).delays⟩
      else pollLoop db ref fetch (attempt + 1) r

/-- The default maxAttempts of pollPaymentStatus (line 242). -/
def defaultMaxAttempts : ℕ := 20

/-- PaymentService.pollPaymentStatus (lines 240-279). -/
def pollPaymentStatus (db : DB) (ref : String) (fetch : ℕ → FetchOutcome)
    (maxAttempts : ℕ) : PollResult :=
  pollLoop db ref fetch 0 maxAttempts

/-- JavaScript truthiness for an optional string field: undefined and
the empty string are falsy. -/
def jsTruthy (o : Option String) : Option String :=
  match o with
  | some s => if s == "" then none else some s
  | none => none

/-- The `data` object of a webhook body (payment.controller.ts line
195): the fields handleWebhook reads. -/
structure WebhookEventData where
  transactionId : Option String
  fullOrderRef : Option String
  externalId : Option String
  status : String
  deriving DecidableEq, Repr

/-- A parsed webhook body: `event` is the event type string, `data` may
be absent (`event.data?.`). -/
structure WebhookBody where
  event : String
  data : Option WebhookEventData
  deriving DecidableEq, Repr

/-- Lines 192-193 of payment.controller.ts: eventId =
event.data?.transactionId || event.data?.fullOrderRef || 'no-id'. -/
def webhookEventId (body : WebhookBody) : String :=
  match jsTruthy (body.data.bind (fun d => d.transactionId)) with
  | some s => s
  | none =>
    match jsTruthy (body.data.bind (fun d => d.fullOrderRef)) with
    | some s => s
    | none => "no-id"

/-- The event-type switch of handleWebhook (lines 232-251): which
status string, if any, gets applied. -/
def webhookNewStatus (body : WebhookBody) (d : WebhookEventData) :
    Option String :=
  if body.event == "payment.completed" then some d.status
  else if body.event == "payment.failed" then some "FAILED"
  else if body.event == "payment.cancelled" then some "CANCELLED"
  else none

/-- The application tail of handleWebhook (lines 214-262), run after the
idempotency block: the externalId guard, the payment lookup by
externalId (getPaymentByExternalId), the event-type switch, and the call
into updatePaymentStatusFromAPI (whose success flag the controller
ignores).  The Bool is the `{ received: true }` acknowledgement. -/
def handleWebhookApply (db : DB) (body : WebhookBody) : DB × Bool :=
  match body.data with
  | none => (db, true)
  | some d =>
    match jsTruthy d.externalId with
    | none => (db, true)
    | some ext =>
      match db.payments.find? (fun p => p.externalId == ext) with
      | none => (db, true)
      | some payment =>
        match webhookNewStatus body d with
        | none => (db, true)
        | some newStatus =>
          ((updatePaymentStatusFromAPI db payment.referenceNumber
              newStatus).1, true)

/-- PaymentController.handleWebhook (lines 153-268), after signature
verification and JSON parsing (out of scope upstream per the spec):
the idempotency block (lines 198-212) looks the eventId up in the
webhookEvent table and acknowledges a duplicate without further effect,
otherwise inserts the eventId; then the application tail. -/
def handleWebhook (db : DB) (body : WebhookBody) : DB × Bool :=
  let eventId := webhookEventId body
  if eventId ≠ "no-id" ∧ eventId ∈ db.webhookEvents then (db, true)
  else
    handleWebhookApply
      (if eventId ≠ "no-id" then
        { db with webhookEvents := db.webhookEvents ++ [eventId] }
      else db) body

/-! ## Interval-overlap characterization (C1) -/

/-- For well-formed half-open intervals, the three-disjunct Prisma range
clause is exactly the standard half-open overlap condition. -/
lemma overlap_disjunction_iff (s e bs be : ℤ) (hse : s < e) (hb : bs < be) :
    ((bs ≤ s ∧ be > s) ∨ (bs < e ∧ be ≥ e) ∨ (bs ≥ s ∧ be ≤ e)) ↔
      (s < be ∧ bs < e) := by omega

/-- Pointwise characterization of the findFirst where-clause. -/
lemma activeOverlapFilter_iff (spotId : String) (s e : ℤ) (b : Booking)
    (hse : s < e) (hb : b.startTime < b.endTime) :
    activeOverlapFilter spotId s e b = true ↔
      (b.parkingSpotId = spotId ∧
        (b.status = .PENDING ∨ b.status = .CONFIRMED) ∧
        s < b.endTime ∧ b.startTime < e) := by
  unfold activeOverlapFilter overlapsBooking
  simp only [Bool.and_eq_true, Bool.or_eq_true, Bool.not_eq_true',
    Bool.or_eq_false_iff, decide_eq_true_eq, decide_eq_false_iff_not,
    beq_iff_eq]
  constructor
  · rintro ⟨⟨⟨hsp, hst⟩, -⟩, hov⟩
    refine ⟨hsp, hst, ?_⟩
    have := (overlap_disjunction_iff s e b.startTime b.endTime hse hb).mp
    omega
  · rintro ⟨hsp, hst, hov⟩
    refine ⟨⟨⟨hsp, hst⟩, ?_⟩, ?_⟩
    · rcases hst with h | h <;> simp [h]
    · have := (overlap_disjunction_iff s e b.startTime b.endTime hse hb).mpr
      omega

/-- C1: a booking-creation request that passes the preliminary
validations (spot exists and is approved, requester is not the owner,
start < end, start not in the past) is rejected with the conflict error
if and only if some existing booking on the same spot whose status is
PENDING or CONFIRMED has a half-open interval overlapping the requested
one (s1 < e2 and s2 < e1).  Adjacent bookings and CANCELLED/COMPLETED
bookings therefore never block creation. -/
theorem create_conflict_iff (db : DB) (dto : CreateBookingDto)
    (userId newId : String) (now : ℤ) (spot : ParkingSpot)
    (hspot : db.spots.find? (fun sp => sp.id == dto.parkingSpotId) =
      some spot)
    (happroved : spot.status = .APPROVED)
    (hnotown : spot.ownerId ≠ userId)
    (htime : dto.startTime < dto.endTime)
    (hfuture : now ≤ dto.startTime)
    (hwf : ∀ b ∈ db.bookings, b.startTime < b.endTime) :
    create db dto userId now newId = .error .conflict ↔
      ∃ b ∈ db.bookings, b.parkingSpotId = dto.parkingSpotId ∧
        (b.status = .PENDING ∨ b.status = .CONFIRMED) ∧
        dto.startTime < b.endTime ∧ b.startTime < dto.endTime := by
  have hown : (spot.ownerId == userId) = false := by
    simpa using hnotown
  have hcheck : createCheck db dto userId now =
      if (findOverlappingBooking db dto.parkingSpotId dto.startTime
          dto.endTime).isSome then .error .conflict else .ok spot := by
    have h3 : ¬ dto.startTime ≥ dto.endTime := by omega
    have h4 : ¬ dto.startTime < now := by omega
    unfold createCheck
    rw [hspot]
    simp only [happroved, ne_eq, not_true_eq_false, if_false, hown,
      Bool.false_eq_true, h3, h4]
  have hiff : (findOverlappingBooking db dto.parkingSpotId dto.startTime
      dto.endTime).isSome = true ↔
      ∃ b ∈ db.bookings, b.parkingSpotId = dto.parkingSpotId ∧
        (b.status = .PENDING ∨ b.status = .CONFIRMED) ∧
        dto.startTime < b.endTime ∧ b.startTime < dto.endTime := by
    unfold findOverlappingBooking
    rw [List.find?_isSome]
    constructor
    · rintro ⟨b, hb, hfil⟩
      exact ⟨b, hb, (activeOverlapFilter_iff _ _ _ b htime (hwf b hb)).mp
        hfil⟩
    · rintro ⟨b, hb, hprop⟩
      exact ⟨b, hb, (activeOverlapFilter_iff _ _ _ b htime (hwf b hb)).mpr
        hprop⟩
  by_cases hc : (findOverlappingBooking db dto.parkingSpotId dto.startTime
      dto.endTime).isSome = true
  · have h1 : create db dto userId now newId = .error .conflict := by
      unfold create
      rw [hcheck, if_pos hc]
    rw [h1]
    exact iff_of_true rfl (hiff.mp hc)
  · have h1 : create db dto userId now newId =
        .ok (createInsert db dto userId newId spot) := by
      unfold create
      rw [hcheck, if_neg hc]
    rw [h1]
    exact iff_of_false (by simp) (fun h => hc (hiff.mpr h))

/-- Shared concrete fixtures for witnesses. -/
def exSpot : ParkingSpot := ⟨"s1", "owner1", 100, .APPROVED⟩

/-- An existing CONFIRMED booking [0 ms, 3600000 ms) on exSpot. -/
def exBooking : Booking := ⟨"b1", "s1", "u1", 0, 3600000, 100, .CONFIRMED⟩

/-- C1 witness: with an existing CONFIRMED booking on [0, 3600000) a
request for [1800000, 5400000) on the same spot is rejected with the
conflict error. -/
theorem create_conflict_iff_witness :
    create ⟨[exSpot], [exBooking], [], [], []⟩ ⟨"s1", 1800000, 5400000⟩
      "u2" 0 "b2" = .error .conflict :=
  (create_conflict_iff ⟨[exSpot], [exBooking], [], [], []⟩
      ⟨"s1", 1800000, 5400000⟩ "u2" "b2" 0 exSpot
      (by decide) (by decide) (by decide) (by decide) (by decide)
      (by decide)).mpr
    ⟨exBooking, by decide, by decide⟩

/-! ## Concurrency of check-and-create (C2) -/

/-- The empty store with one approved spot, ready for booking. -/
def raceDb : DB := ⟨[exSpot], [], [], [], []⟩

/-- First racing request: [0 ms, 3600000 ms) on exSpot. -/
def raceDtoA : CreateBookingDto := ⟨"s1", 0, 3600000⟩

/-- Second racing request: [1800000 ms, 5400000 ms), overlapping the
first. -/
def raceDtoB : CreateBookingDto := ⟨"s1", 1800000, 5400000⟩

/-- C2: the conflict check and the insert of BookingService.create are
two separate awaited store operations with no transaction, lock or
storage-level exclusion constraint between them, so under the
interleaving check-A, check-B, insert-A, insert-B both overlapping
requests pass the conflict check against the initial store and both
inserts commit, producing two PENDING bookings with overlapping
intervals on the same resource - both requests succeed. -/
theorem create_race_double_booking :
    createCheck raceDb raceDtoA "u1" 0 = .ok exSpot ∧
    createCheck raceDb raceDtoB "u2" 0 = .ok exSpot ∧
    (∃ b1 ∈ (createInsert
        (createInsert raceDb raceDtoA "u1" "bA" exSpot).2
        raceDtoB "u2" "bB" exSpot).2.bookings,
      ∃ b2 ∈ (createInsert
        (createInsert raceDb raceDtoA "u1" "bA" exSpot).2
        raceDtoB "u2" "bB" exSpot).2.bookings,
      b1.id ≠ b2.id ∧ b1.parkingSpotId = b2.parkingSpotId ∧
      b1.status = .PENDING ∧ b2.status = .PENDING ∧
      b1.startTime < b2.endTime ∧ b2.startTime < b1.endTime) :=
  ⟨rfl, rfl, by decide⟩

/-! ## Reconciliation against a terminal booking (C3) -/

/-- A booking the requester has already cancelled. -/
def lateBooking : Booking := ⟨"b1", "s1", "u1", 0, 3600000, 100, .CANCELLED⟩

/-- The pending payment attached to lateBooking. -/
def latePayment : Payment := ⟨"p1", "b1", "ref1", "ext1", .PENDING⟩

/-- Store state after a user cancellation that raced ahead of the
gateway reporting success. -/
def lateDb : DB := ⟨[exSpot], [lateBooking], [latePayment], [], []⟩

/-- C3: the reconciler never reads the booking's current status, so
reconciling a reported SUCCEEDED against a booking that is already
CANCELLED moves the booking to CONFIRMED (and fires both notification
attempts) instead of being a no-op or an InvalidStateTransition error.
This evaluates updatePaymentStatusFromAPI at the failing input. -/
theorem reconcile_succeeded_overrides_cancelled :
    (updatePaymentStatusFromAPI lateDb "ref1" "SUCCEEDED").1.bookings =
      [{ lateBooking with status := .CONFIRMED }] ∧
    (updatePaymentStatusFromAPI lateDb "ref1" "SUCCEEDED").1.notifications =
      [⟨"owner", "b1"⟩, ⟨"guest", "b1"⟩] ∧
    (updatePaymentStatusFromAPI lateDb "ref1" "SUCCEEDED").2 = true := by
  decide

/-! ## Data-level idempotency of reconciliation (C5) -/

/-- A booking already confirmed by an earlier SUCCEEDED reconcile. -/
def doneBooking : Booking := ⟨"b1", "s1", "u1", 0, 3600000, 100, .CONFIRMED⟩

/-- Its payment, already SUCCEEDED. -/
def donePayment : Payment := ⟨"p1", "b1", "ref1", "ext1", .SUCCEEDED⟩

/-- Store state after a completed SUCCEEDED reconciliation. -/
def doneDb : DB := ⟨[exSpot], [doneBooking], [donePayment], [], []⟩

/-- C5: reapplying the same terminal status is not a no-op: reconciling
SUCCEEDED against a payment that is already SUCCEEDED leaves the payment
status equal (no meaningful change) yet dispatches the owner and guest
notifications again - the side effects are gated on reading SUCCEEDED,
not on the status changing during the call. -/
theorem reconcile_same_terminal_renotifies :
    (updatePaymentStatusFromAPI doneDb "ref1" "SUCCEEDED").1.payments =
      doneDb.payments ∧
    (updatePaymentStatusFromAPI doneDb "ref1" "SUCCEEDED").1.notifications =
      [⟨"owner", "b1"⟩, ⟨"guest", "b1"⟩] ∧
    doneDb.notifications = [] := by
  decide

/-! ## Webhook idempotency (C4, C10) -/

/-- Reconciliation never touches the processed-webhook-event table. -/
lemma updateBookingStatus_webhookEvents (db : DB) (ref s : String) :
    (updateBookingStatus db ref s).1.webhookEvents = db.webhookEvents := by
  unfold updateBookingStatus
  split
  · rfl
  · split
    · rfl
    · split
      · rfl
      · split <;> rfl

/-- Reconciliation never touches the processed-webhook-event table. -/
lemma updatePaymentStatusFromAPI_webhookEvents (db : DB) (ref s : String) :
    (updatePaymentStatusFromAPI db ref s).1.webhookEvents =
      db.webhookEvents := by
  unfold updatePaymentStatusFromAPI
  split
  · rfl
  · rw [updateBookingStatus_webhookEvents]

/-- A delivery whose eventId is already recorded is acknowledged with no
effect at all. -/
lemma handleWebhook_seen (db : DB) (body : WebhookBody)
    (hid : webhookEventId body ≠ "no-id")
    (hmem : webhookEventId body ∈ db.webhookEvents) :
    handleWebhook db body = (db, true) := by
  unfold handleWebhook
  rw [if_pos ⟨hid, hmem⟩]

/-- The application tail never touches the processed-event table. -/
lemma handleWebhookApply_webhookEvents (db : DB) (body : WebhookBody) :
    (handleWebhookApply db body).1.webhookEvents = db.webhookEvents := by
  unfold handleWebhookApply
  split
  · rfl
  · split
    · rfl
    · split
      · rfl
      · split
        · rfl
        · rw [updatePaymentStatusFromAPI_webhookEvents]

/-- Any run of the handler on a non-degenerate eventId leaves that
eventId recorded in the processed-event table. -/
lemma handleWebhook_records (db : DB) (body : WebhookBody)
    (hid : webhookEventId body ≠ "no-id") :
    webhookEventId body ∈ (handleWebhook db body).1.webhookEvents := by
  unfold handleWebhook
  by_cases hmem : webhookEventId body ∈ db.webhookEvents
  · rw [if_pos ⟨hid, hmem⟩]
    exact hmem
  · rw [if_neg (fun h => hmem h.2), if_pos hid,
      handleWebhookApply_webhookEvents]
    simp

/-- C4: for a webhook delivery carrying a real eventId, a delivery whose
eventId is already in the processed-event table is acknowledged and has
no effect, and delivering the same body a second time right after a
first delivery is a no-op - so the total effect (booking transition,
notification dispatch) of two deliveries of one eventId is exactly the
effect of the first. -/
theorem handleWebhook_duplicate_noop (db : DB) (body : WebhookBody)
    (hid : webhookEventId body ≠ "no-id") :
    (webhookEventId body ∈ db.webhookEvents →
      handleWebhook db body = (db, true)) ∧
    handleWebhook (handleWebhook db body).1 body =
      ((handleWebhook db body).1, true) := by
  refine ⟨fun hmem => handleWebhook_seen db body hid hmem, ?_⟩
  exact handleWebhook_seen _ body hid (handleWebhook_records db body hid)

/-- Concrete webhook body used by the witnesses. -/
def exBody : WebhookBody :=
  ⟨"payment.completed", some ⟨some "evt1", some "ref1", some "ext1",
    "SUCCEEDED"⟩⟩

/-- C4 witness: a second delivery of exBody to the post-first-delivery
store is acknowledged and leaves the store unchanged. -/
theorem handleWebhook_duplicate_noop_witness :
    handleWebhook (handleWebhook lateDb exBody).1 exBody =
      ((handleWebhook lateDb exBody).1, true) :=
  (handleWebhook_duplicate_noop lateDb exBody (by decide)).2

/-- C10: the handler inserts the eventId into the processed-event table
before it resolves the payment; when the payment lookup by externalId
finds nothing (the webhook raced ahead of local payment creation) the
delivery is acknowledged with the eventId recorded and no payment or
booking effect, and from then on every redelivery of the same eventId -
including after the payment row exists - is acknowledged as already
processed with no effect: the event's status effect is permanently
dropped. -/
theorem handleWebhook_failed_delivery_dropped (db : DB)
    (body : WebhookBody) (d : WebhookEventData) (ext : String)
    (hid : webhookEventId body ≠ "no-id")
    (hnew : webhookEventId body ∉ db.webhookEvents)
    (hdata : body.data = some d)
    (hext : jsTruthy d.externalId = some ext)
    (hpay : db.payments.find? (fun p => p.externalId == ext) = none) :
    handleWebhook db body =
      ({ db with webhookEvents :=
          db.webhookEvents ++ [webhookEventId body] }, true) ∧
    ∀ db₂ : DB, webhookEventId body ∈ db₂.webhookEvents →
      handleWebhook db₂ body = (db₂, true) := by
  constructor
  · unfold handleWebhook
    rw [if_neg (fun h => hnew h.2), if_pos hid]
    unfold handleWebhookApply
    rw [hdata]
    simp only [hext]
    rw [show ({ db with webhookEvents :=
        db.webhookEvents ++ [webhookEventId body] } : DB).payments =
      db.payments from rfl, hpay]
  · exact fun db₂ hmem => handleWebhook_seen db₂ body hid hmem

/-- A store holding the payment but where evt1 was already burned by an
earlier failed delivery. -/
def burnedDb : DB := ⟨[exSpot], [lateBooking], [latePayment], ["evt1"], []⟩

/-- C10 witness: delivering exBody to an empty-payment store records
evt1 and acknowledges; redelivering it once the payment exists is
acknowledged with no effect. -/
theorem handleWebhook_failed_delivery_dropped_witness :
    handleWebhook (⟨[exSpot], [lateBooking], [], [], []⟩ : DB) exBody =
      (⟨[exSpot], [lateBooking], [], ["evt1"], []⟩, true) ∧
    handleWebhook burnedDb exBody = (burnedDb, true) := by
  have h := handleWebhook_failed_delivery_dropped
    (⟨[exSpot], [lateBooking], [], [], []⟩ : DB) exBody
    ⟨some "evt1", some "ref1", some "ext1", "SUCCEEDED"⟩ "ext1"
    (by decide) (by decide) rfl (by decide) (by decide)
  exact ⟨h.1, h.2 burnedDb (by decide)⟩

/-! ## Cancellation (C7) -/

/-- Touching the payment row leaves the bookings table alone. -/
lemma cancelPaymentIfPending_bookings (db : DB) (id : String) :
    (cancelPaymentIfPending db id).bookings = db.bookings := by
  unfold cancelPaymentIfPending
  split
  · split <;> rfl
  · rfl

/-- C7: cancelling a PENDING booking as its requester when a PENDING
payment row exists for it succeeds and sets both the booking row and
the payment row to CANCELLED in the one operation; cancelling when the
booking is already CANCELLED or is COMPLETED throws the
InvalidStateTransition error, and since the throw happens before any
store write, neither booking nor payment state changes. -/
theorem cancel_behavior (db : DB) (id userId : String)
    (b : Booking) (p : Payment)
    (hfind : db.bookings.find? (fun x => x.id == id) = some b)
    (howner : b.userId = userId) :
    (b.status = .PENDING →
      db.payments.find? (fun q => q.bookingId == id) = some p →
      p.status = .PENDING →
      ∃ db', cancel db id userId = .ok db' ∧
        (∀ x ∈ db'.bookings, x.id = id → x.status = .CANCELLED) ∧
        (∃ x ∈ db'.bookings, x.id = id) ∧
        (∀ q ∈ db'.payments, q.id = p.id → q.status = .CANCELLED) ∧
        (∃ q ∈ db'.payments, q.id = p.id)) ∧
    (b.status = .CANCELLED ∨ b.status = .COMPLETED →
      cancel db id userId = .error .invalidStateTransition) := by
  have hbid : b.id = id := by
    have := List.find?_some hfind
    simpa using this
  have hbmem : b ∈ db.bookings := List.mem_of_find?_eq_some hfind
  have hviz : findOneVisible db id userId = some b := by
    unfold findOneVisible
    simp [hfind, howner]
  constructor
  · intro hpend hpay hppend
    have hok : cancel db id userId =
        .ok (setBookingCancelled (cancelPaymentIfPending db id) id) := by
      unfold cancel
      simp only [hviz]
      rw [if_neg (by simp [howner]), if_neg (by simp [hpend]),
        if_neg (by simp [hpend])]
    have hpays : (cancelPaymentIfPending db id).payments =
        db.payments.map (fun q =>
          if q.id == p.id then { q with status := .CANCELLED } else q) := by
      unfold cancelPaymentIfPending
      simp only [hpay]
      rw [if_pos hppend]
    have hpmem : p ∈ db.payments := List.mem_of_find?_eq_some hpay
    refine ⟨setBookingCancelled (cancelPaymentIfPending db id) id, hok,
      ?_, ?_, ?_, ?_⟩
    · intro x hx hxid
      unfold setBookingCancelled at hx
      simp only [cancelPaymentIfPending_bookings] at hx
      rcases List.mem_map.mp hx with ⟨x0, _, rfl⟩
      by_cases h0 : (x0.id == id) = true
      · simp [h0]
      · rw [if_neg h0] at hxid ⊢
        exact absurd (by simpa using hxid) (by simpa using h0)
    · refine ⟨(fun x => if x.id == id then
          { x with status := BookingStatus.CANCELLED } else x) b, ?_, ?_⟩
      · unfold setBookingCancelled
        simp only [cancelPaymentIfPending_bookings]
        exact List.mem_map_of_mem _ hbmem
      · simp [hbid]
    · intro q hq hqid
      rw [show (setBookingCancelled (cancelPaymentIfPending db id)
          id).payments = (cancelPaymentIfPending db id).payments from rfl,
        hpays] at hq
      rcases List.mem_map.mp hq with ⟨q0, _, rfl⟩
      by_cases h0 : (q0.id == p.id) = true
      · simp [h0]
      · rw [if_neg h0] at hqid ⊢
        exact absurd (by simpa using hqid) (by simpa using h0)
    · refine ⟨(fun q => if q.id == p.id then
          { q with status := PaymentStatus.CANCELLED } else q) p, ?_, ?_⟩
      · rw [show (setBookingCancelled (cancelPaymentIfPending db id)
            id).payments = (cancelPaymentIfPending db id).payments from rfl,
          hpays]
        exact List.mem_map_of_mem _ hpmem
      · simp
  · intro hterm
    unfold cancel
    simp only [hviz]
    rw [if_neg (by simp [howner])]
    rcases hterm with h | h
    · rw [if_pos h]
    · rw [if_neg (by simp [h]), if_pos h]

/-- Fixture: a PENDING booking with a PENDING payment. -/
def freshBooking : Booking := ⟨"b1", "s1", "u1", 0, 3600000, 100, .PENDING⟩

/-- Fixture store for the cancel witness. -/
def freshDb : DB := ⟨[exSpot], [freshBooking], [latePayment], [], []⟩

/-- Fixture store whose only booking is COMPLETED. -/
def completedDb : DB :=
  ⟨[exSpot], [{ freshBooking with status := .COMPLETED }], [latePayment],
    [], []⟩

/-- C7 witness: cancelling the fresh booking succeeds cancelling both
rows; cancelling the completed one raises InvalidStateTransition. -/
theorem cancel_behavior_witness :
    (∃ db', cancel freshDb "b1" "u1" = .ok db' ∧
      (∀ x ∈ db'.bookings, x.id = "b1" → x.status = .CANCELLED) ∧
      (∃ x ∈ db'.bookings, x.id = "b1") ∧
      (∀ q ∈ db'.payments, q.id = "p1" → q.status = .CANCELLED) ∧
      (∃ q ∈ db'.payments, q.id = "p1")) ∧
    cancel completedDb "b1" "u1" = .error .invalidStateTransition := by
  constructor
  · exact (cancel_behavior freshDb "b1" "u1" freshBooking latePayment
      (by decide) rfl).1 rfl (by decide) rfl
  · exact (cancel_behavior completedDb "b1" "u1"
      { freshBooking with status := .COMPLETED } latePayment
      (by decide) rfl).2 (Or.inr rfl)

/-! ## Total price (C6) -/

/-- The spec's pricing formula, in the spec's words: `ceil_to_cents(q)`
rounds the peso amount `q` up to the next cent.  Stated only to compare
against the source's `computeTotalPrice`. -/
def specCeilToCents (q : ℚ) : ℚ := (Int.ceil (q * 100) : ℚ) / 100

/-- A 20-minute booking: 1200000 ms. -/
def minuteDto : CreateBookingDto := ⟨"s1", 0, 1200000⟩

/-- The source rounds to the nearest cent: a 20-minute booking at
₱100/hr (100/3 pesos = 33.333... ) is priced 33.33. -/
lemma computeTotalPrice_twenty_min : computeTotalPrice 0 1200000 100 =
    3333 / 100 := by
  unfold computeTotalPrice jsRound
  have h2 : ⌊(((1200000 - 0 : ℤ) : ℚ)) / 3600000 * 100 * 100 + 1/2⌋ =
      3333 := by
    rw [show (((1200000 - 0 : ℤ) : ℚ)) / 3600000 * 100 * 100 + 1/2 =
      20003 / 6 from by norm_num, Int.floor_eq_iff]
    norm_num
  simp only [h2]
  norm_num

/-- One hour at ₱100/hr is priced exactly ₱100. -/
lemma computeTotalPrice_one_hour : computeTotalPrice 0 3600000 100 =
    100 := by
  unfold computeTotalPrice jsRound
  have h2 : ⌊(((3600000 - 0 : ℤ) : ℚ)) / 3600000 * 100 * 100 + 1/2⌋ =
      10000 := by
    rw [show (((3600000 - 0 : ℤ) : ℚ)) / 3600000 * 100 * 100 + 1/2 =
      20001 / 2 from by norm_num, Int.floor_eq_iff]
    norm_num
  simp only [h2]
  norm_num

/-- C6 counterexample: a successfully created 20-minute booking at
₱100/hr has totalPrice 33.33 while ceil_to_cents of the spec's formula
gives 33.34 - the source uses Math.round (nearest cent), not ceiling. -/
theorem totalPrice_not_ceil_counterexample :
    (∃ bk db2, create raceDb minuteDto "u2" 0 "bA" = .ok (bk, db2) ∧
      bk.totalPrice = 3333 / 100) ∧
    specCeilToCents (((1200000 - 0 : ℤ) : ℚ) / 3600000 * 100) =
      3334 / 100 ∧
    (3333 / 100 : ℚ) ≠ 3334 / 100 := by
  refine ⟨⟨_, _, rfl, computeTotalPrice_twenty_min⟩, ?_, by norm_num⟩
  unfold specCeilToCents
  have h1 : (((1200000 - 0 : ℤ) : ℚ)) / 3600000 * 100 * 100 =
      10000 / 3 := by norm_num
  rw [h1, show ⌈(10000 / 3 : ℚ)⌉ = 3334 from by
    rw [Int.ceil_eq_iff]
    norm_num]
  norm_num

/-- Mapping by an element-wise function that a projection cannot see is
invisible to mapping by that projection. -/
lemma map_map_invariant {α β : Type} (l : List α) (f : α → α) (g : α → β)
    (h : ∀ a, g (f a) = g a) : (l.map f).map g = l.map g := by
  induction l with
  | nil => rfl
  | cons a t ih => simp [h a, ih]

/-- A successful cancel only rewrites booking statuses. -/
lemma cancel_ok_bookings (db : DB) (id userId : String) (db' : DB)
    (h : cancel db id userId = .ok db') :
    db'.bookings = db.bookings.map (fun x =>
      if x.id == id then { x with status := BookingStatus.CANCELLED }
      else x) := by
  unfold cancel at h
  split at h
  · exact absurd h (by simp)
  · split at h
    · exact absurd h (by simp)
    · split at h
      · exact absurd h (by simp)
      · split at h
        · exact absurd h (by simp)
        · have he := Except.ok.inj h
          subst he
          rw [show (setBookingCancelled (cancelPaymentIfPending db id)
              id).bookings = (cancelPaymentIfPending db id).bookings.map
              (fun x => if x.id == id then
                { x with status := BookingStatus.CANCELLED } else x)
            from rfl]
          rw [cancelPaymentIfPending_bookings]

/-- Reconciliation only rewrites booking statuses: ids and total prices
survive updateBookingStatus. -/
lemma updateBookingStatus_idPrice (db : DB) (ref s : String) :
    (updateBookingStatus db ref s).1.bookings.map
      (fun x => (x.id, x.totalPrice)) =
    db.bookings.map (fun x => (x.id, x.totalPrice)) := by
  unfold updateBookingStatus
  split
  · rfl
  · split
    · rfl
    · split
      · rfl
      · split <;>
        · apply map_map_invariant
          intro a
          split <;> rfl

/-- Reconciliation only rewrites booking statuses: ids and total prices
survive updatePaymentStatusFromAPI. -/
lemma updatePaymentStatusFromAPI_idPrice (db : DB) (ref s : String) :
    (updatePaymentStatusFromAPI db ref s).1.bookings.map
      (fun x => (x.id, x.totalPrice)) =
    db.bookings.map (fun x => (x.id, x.totalPrice)) := by
  unfold updatePaymentStatusFromAPI
  split
  · rfl
  · rw [updateBookingStatus_idPrice]

/-- C6 (amended): the total price of a created booking is
round_to_cents(hours(end-start) * pricePerHour) - nearest cent,
JavaScript Math.round - computed at creation from the spot's current
hourly price; a 09:00-10:00 booking at ₱100/hr is priced 100.00; and no
later cancel or payment reconciliation changes any booking's stored
totalPrice. -/
theorem totalPrice_rounded_and_immutable (db : DB)
    (dto : CreateBookingDto) (uid nid : String) (now : ℤ)
    (sp : ParkingSpot) (bk : Booking) (db2 : DB)
    (hsp : db.spots.find? (fun x => x.id == dto.parkingSpotId) = some sp)
    (hok : create db dto uid now nid = .ok (bk, db2)) :
    bk.totalPrice =
      computeTotalPrice dto.startTime dto.endTime sp.pricePerHour ∧
    computeTotalPrice 0 3600000 100 = 100 ∧
    (∀ id userId db', cancel db2 id userId = .ok db' →
      db'.bookings.map (fun x => (x.id, x.totalPrice)) =
        db2.bookings.map (fun x => (x.id, x.totalPrice))) ∧
    (∀ ref s, (updatePaymentStatusFromAPI db2 ref s).1.bookings.map
        (fun x => (x.id, x.totalPrice)) =
      db2.bookings.map (fun x => (x.id, x.totalPrice))) := by
  refine ⟨?_, computeTotalPrice_one_hour, ?_, ?_⟩
  · unfold create at hok
    rcases hck : createCheck db dto uid now with e | sp2
    · rw [hck] at hok
      exact absurd hok (by simp)
    · rw [hck] at hok
      have hpair := Except.ok.inj hok
      have hsp2 : sp2 = sp := by
        unfold createCheck at hck
        simp only [hsp] at hck
        split at hck
        · exact absurd hck (by simp)
        · split at hck
          · exact absurd hck (by simp)
          · split at hck
            · exact absurd hck (by simp)
            · split at hck
              · exact absurd hck (by simp)
              · split at hck
                · exact absurd hck (by simp)
                · exact (Except.ok.inj hck).symm
      have hfst : (createInsert db dto uid nid sp2).1 = bk :=
        congrArg Prod.fst hpair
      rw [← hfst, hsp2]
      rfl
  · intro id userId db' h
    rw [cancel_ok_bookings db2 id userId db' h]
    apply map_map_invariant
    intro a
    by_cases hx : (a.id == id) = true <;> simp [hx]
  · intro ref s
    exact updatePaymentStatusFromAPI_idPrice db2 ref s

/-- The booking created by the priced witness run (its totalPrice is
the formula, left unevaluated). -/
def wBooking : Booking :=
  ⟨"bA", "s1", "u2", 0, 3600000, computeTotalPrice 0 3600000 100, .PENDING⟩

/-- Store after the priced witness run. -/
def wDb2 : DB := ⟨[exSpot], [wBooking], [], [], []⟩

/-- C6 witness: the one-hour booking at ₱100/hr created into the empty
store carries the rounded price (₱100.00 exactly) and neither cancel
nor reconciliation can change any stored price. -/
theorem totalPrice_rounded_and_immutable_witness :
    wBooking.totalPrice = computeTotalPrice 0 3600000 100 ∧
    computeTotalPrice 0 3600000 100 = 100 ∧
    (∀ id userId db', cancel wDb2 id userId = .ok db' →
      db'.bookings.map (fun x => (x.id, x.totalPrice)) =
        wDb2.bookings.map (fun x => (x.id, x.totalPrice))) ∧
    (∀ ref s, (updatePaymentStatusFromAPI wDb2 ref s).1.bookings.map
        (fun x => (x.id, x.totalPrice)) =
      wDb2.bookings.map (fun x => (x.id, x.totalPrice))) :=
  totalPrice_rounded_and_immutable raceDb raceDtoA "u2" "bA" 0 exSpot
    wBooking wDb2 (by decide) rfl

/-! ## Unrecognized external statuses (C8) -/

/-- C8 counterexample: reconciling the out-of-vocabulary status
"REFUNDED" against a payment whose status is SUCCEEDED is not a no-op:
the payment status is rewritten to PENDING (the booking is indeed left
alone). -/
theorem unrecognized_status_resets_payment :
    donePayment.status = .SUCCEEDED ∧
    (updatePaymentStatusFromAPI doneDb "ref1" "REFUNDED").1.payments =
      [{ donePayment with status := .PENDING }] ∧
    (updatePaymentStatusFromAPI doneDb "ref1" "REFUNDED").1.bookings =
      doneDb.bookings := by
  decide

/-- Finding commutes with mapping by a function invisible to the
predicate. -/
lemma find?_map_pres {α : Type} (l : List α) (q : α → Bool) (g : α → α)
    (hg : ∀ a, q (g a) = q a) :
    (l.map g).find? q = (l.find? q).map g := by
  rw [List.find?_map]
  have hq : q ∘ g = q := funext fun a => hg a
  rw [hq]

/-- C8 (amended): a reconciliation call whose reported status is outside
{PENDING, SUCCEEDED, FAILED, CANCELLED} does not error and never touches
the booking or dispatches a notification, but it is not a payment-level
no-op: the unrecognized status is mapped to PENDING and written, so
every payment row with the given reference ends the call with status
PENDING (a no-op only when it already was PENDING). -/
theorem unrecognized_status_behavior (db : DB) (ref s : String)
    (h1 : s ≠ "PENDING") (h2 : s ≠ "SUCCEEDED") (h3 : s ≠ "FAILED")
    (h4 : s ≠ "CANCELLED") :
    (updatePaymentStatusFromAPI db ref s).1.bookings = db.bookings ∧
    (updatePaymentStatusFromAPI db ref s).1.notifications =
      db.notifications ∧
    (∀ p ∈ (updatePaymentStatusFromAPI db ref s).1.payments,
      p.referenceNumber = ref → p.status = .PENDING) ∧
    ((db.payments.find? (fun p => p.referenceNumber == ref)).isSome →
      (updatePaymentStatusFromAPI db ref s).2 = true) := by
  have hmap : mapStatusPSS s = .PENDING := by
    unfold mapStatusPSS
    rw [if_neg (by simpa using h2), if_neg (by simpa using h3),
      if_neg (by simpa using h4)]
  have hbs : bookingStatusFor s = none := by
    unfold bookingStatusFor
    rw [if_neg (by simpa using h2), if_neg (by simpa using h3),
      if_neg (by simpa using h4)]
  have hg : ∀ a : Payment, (((fun p : Payment =>
      if p.referenceNumber == ref then
        { p with status := mapStatusPSS s } else p) a).referenceNumber ==
        ref) = (a.referenceNumber == ref) := by
    intro a
    by_cases h : (a.referenceNumber == ref) = true <;> simp [h]
  rcases hp : db.payments.find? (fun p => p.referenceNumber == ref)
      with _ | p
  · have hres : updatePaymentStatusFromAPI db ref s = (db, false) := by
      unfold updatePaymentStatusFromAPI
      simp only [hp]
    refine ⟨by rw [hres], by rw [hres], ?_, by simp [hp]⟩
    intro q hq hqref
    rw [hres] at hq
    have := List.find?_eq_none.mp hp q hq
    exact absurd (by simpa using hqref) this
  · have hfind1 : (db.payments.map (fun p : Payment =>
        if p.referenceNumber == ref then
          { p with status := mapStatusPSS s } else p)).find?
        (fun p => p.referenceNumber == ref) =
        some (if p.referenceNumber == ref then
          { p with status := mapStatusPSS s } else p) := by
      rw [find?_map_pres _ _ _ hg, hp]
      rfl
    have hres : updatePaymentStatusFromAPI db ref s =
        ({ db with payments := db.payments.map (fun p : Payment =>
            if p.referenceNumber == ref then
              { p with status := mapStatusPSS s } else p) }, true) := by
      unfold updatePaymentStatusFromAPI
      simp only [hp]
      unfold updateBookingStatus
      simp only [hfind1, hbs]
    refine ⟨by rw [hres], by rw [hres], ?_, fun _ => by rw [hres]⟩
    intro q hq hqref
    rw [hres] at hq
    rcases List.mem_map.mp hq with ⟨q0, -, rfl⟩
    by_cases h0 : (q0.referenceNumber == ref) = true
    · simp [h0, hmap]
    · rw [if_neg h0] at hqref ⊢
      exact absurd (by simpa using hqref) (by simpa using h0)

/-- C8 witness: reconciling "REFUNDED" against the SUCCEEDED payment of
doneDb leaves bookings and notifications alone, sets every "ref1"
payment row to PENDING and reports success. -/
theorem unrecognized_status_behavior_witness :
    (updatePaymentStatusFromAPI doneDb "ref1" "REFUNDED").1.bookings =
      doneDb.bookings ∧
    (updatePaymentStatusFromAPI doneDb "ref1" "REFUNDED").1.notifications =
      doneDb.notifications ∧
    (∀ p ∈ (updatePaymentStatusFromAPI doneDb "ref1" "REFUNDED").1.payments,
      p.referenceNumber = "ref1" → p.status = .PENDING) ∧
    ((doneDb.payments.find?
        (fun p => p.referenceNumber == "ref1")).isSome →
      (updatePaymentStatusFromAPI doneDb "ref1" "REFUNDED").2 = true) :=
  unrecognized_status_behavior doneDb "ref1" "REFUNDED"
    (by decide) (by decide) (by decide) (by decide)

/-! ## Status poller (C9) -/

/-- The store can reconcile `ref`: the payment row exists and so does
its booking row (so neither prisma update inside getPaymentStatus
throws). -/
def Reconcilable (db : DB) (ref : String) : Prop :=
  ∃ p, db.payments.find? (fun q => q.referenceNumber == ref) = some p ∧
    ∃ b, db.bookings.find? (fun x => x.id == p.bookingId) = some b

/-- The payment-row rewrite performed by a PENDING fetch. -/
def pendingWrite (db : DB) (ref : String) : DB :=
  { db with payments := db.payments.map (fun q =>
      if q.referenceNumber == ref then { q with status := .PENDING }
      else q) }

lemma mapPaymentStatus_pending : mapPaymentStatus "PENDING" =
    PaymentStatus.PENDING := by decide

lemma bookingStatusFor_pending : bookingStatusFor "PENDING" = none := by
  decide

/-- The reference predicate cannot see the status rewrite. -/
lemma pendingWrite_pres (ref : String) : ∀ a : Payment,
    (((fun q : Payment => if q.referenceNumber == ref then
        { q with status := PaymentStatus.PENDING } else q)
      a).referenceNumber == ref) = (a.referenceNumber == ref) := by
  intro a
  by_cases h : (a.referenceNumber == ref) = true <;> simp [h]

/-- When the reported status maps to no booking status, the booking
drive is the identity and cannot throw. -/
lemma updateBookingStatus_none (db : DB) (ref s : String)
    (hbs : bookingStatusFor s = none) :
    updateBookingStatus db ref s = (db, true) := by
  unfold updateBookingStatus
  split
  · rfl
  · simp only [hbs]

/-- A fetch reporting PENDING rewrites the payment row to PENDING and
leaves everything else alone, without throwing. -/
lemma getPaymentStatus_pending (db : DB) (ref : String) (p : Payment)
    (hp : db.payments.find? (fun q => q.referenceNumber == ref) = some p) :
    getPaymentStatus db ref "PENDING" = (pendingWrite db ref, true) := by
  unfold getPaymentStatus
  simp only [hp, mapPaymentStatus_pending]
  exact updateBookingStatus_none _ ref "PENDING" bookingStatusFor_pending

/-- The reference predicate cannot see any status rewrite. -/
lemma statusWrite_pres (ref : String) (st : PaymentStatus) :
    ∀ a : Payment, (((fun q : Payment =>
      if q.referenceNumber == ref then { q with status := st } else q)
        a).referenceNumber == ref) = (a.referenceNumber == ref) := by
  intro a
  by_cases h : (a.referenceNumber == ref) = true <;> simp [h]

/-- When payment and booking rows both exist, updateBookingStatus does
not throw. -/
lemma updateBookingStatus_found_flag (db : DB) (ref s : String)
    (p : Payment) (b : Booking)
    (hp : db.payments.find? (fun q => q.referenceNumber == ref) = some p)
    (hb : db.bookings.find? (fun x => x.id == p.bookingId) = some b) :
    (updateBookingStatus db ref s).2 = true := by
  unfold updateBookingStatus
  simp only [hp]
  cases hbs : bookingStatusFor s with
  | none => rfl
  | some bst =>
    simp only [hb]
    split <;> rfl

/-- When payment and booking rows both exist, getPaymentStatus does not
throw, whatever status the gateway reports. -/
lemma getPaymentStatus_flag (db : DB) (ref s : String)
    (p : Payment) (b : Booking)
    (hp : db.payments.find? (fun q => q.referenceNumber == ref) = some p)
    (hb : db.bookings.find? (fun x => x.id == p.bookingId) = some b) :
    (getPaymentStatus db ref s).2 = true := by
  unfold getPaymentStatus
  simp only [hp]
  have hgp : ((fun q : Payment => if q.referenceNumber == ref then
      { q with status := mapPaymentStatus s } else q) p).bookingId =
      p.bookingId := by
    by_cases h0 : (p.referenceNumber == ref) = true <;> simp [h0]
  apply updateBookingStatus_found_flag _ ref s
    ((fun q : Payment => if q.referenceNumber == ref then
      { q with status := mapPaymentStatus s } else q) p) b
  · show (db.payments.map _).find? _ = _
    rw [find?_map_pres _ _ _ (statusWrite_pres ref (mapPaymentStatus s)),
      hp]
    rfl
  · show db.bookings.find? _ = _
    rw [hgp]
    exact hb

/-- Reconcilability survives the PENDING payment-row rewrite. -/
lemma reconcilable_pendingWrite (db : DB) (ref : String)
    (h : Reconcilable db ref) : Reconcilable (pendingWrite db ref) ref := by
  obtain ⟨p, hp, b, hb⟩ := h
  refine ⟨(fun q : Payment => if q.referenceNumber == ref then
    { q with status := PaymentStatus.PENDING } else q) p, ?_, b, ?_⟩
  · show (db.payments.map _).find? _ = _
    rw [find?_map_pres _ _ _ (pendingWrite_pres ref), hp]
    rfl
  · have hgp : ((fun q : Payment => if q.referenceNumber == ref then
        { q with status := PaymentStatus.PENDING } else q) p).bookingId =
        p.bookingId := by
      by_cases h0 : (p.referenceNumber == ref) = true <;> simp [h0]
    show db.bookings.find? _ = _
    rw [hgp]
    exact hb

/-- Every payment row carrying the polled reference is PENDING after the
PENDING rewrite. -/
lemma pendingWrite_payments_pending (db : DB) (ref : String) :
    ∀ q ∈ (pendingWrite db ref).payments, q.referenceNumber = ref →
      q.status = .PENDING := by
  intro q hq hqref
  rcases List.mem_map.mp hq with ⟨q0, -, rfl⟩
  by_cases h0 : (q0.referenceNumber == ref) = true
  · simp [h0]
  · rw [if_neg h0] at hqref ⊢
    exact absurd (by simpa using hqref) (by simpa using h0)

/-- Peeling one backoff delay off the front of the delay schedule. -/
lemma range_succ_delay (a i : ℕ) :
    (List.range (i + 1)).map (fun j => min (2 ^ (a + j)) 30) =
      min (2 ^ a) 30 ::
        (List.range i).map (fun j => min (2 ^ (a + 1 + j)) 30) := by
  rw [List.range_succ_eq_map]
  simp only [List.map_cons, List.map_map]
  congr 1
  apply List.map_congr_left
  intro j hj
  show 2 ^ (a + (j + 1)) ⊓ 30 = 2 ^ (a + 1 + j) ⊓ 30
  rw [show a + (j + 1) = a + 1 + j from by omega]

/-- A run whose fetches report PENDING `i` times and then a terminal
status returns that terminal status right away, having waited
min(2^attempt, 30) seconds after each PENDING report. -/
lemma pollLoop_first_terminal (ref : String) (fetch : ℕ → FetchOutcome)
    (t : String) (ht : t = "SUCCEEDED" ∨ t = "FAILED" ∨ t = "CANCELLED") :
    ∀ (i : ℕ) (db : DB) (a r : ℕ), Reconcilable db ref →
    (∀ j, j < i → fetch (a + j) = .ok "PENDING") →
    fetch (a + i) = .ok t → i < r →
    ∃ db', pollLoop db ref fetch a r =
      ⟨db', some t, (List.range i).map (fun j => min (2 ^ (a + j)) 30)⟩ := by
  intro i
  induction i with
  | zero =>
    intro db a r hrec hpend hterm hlt
    obtain ⟨r', rfl⟩ : ∃ r', r = r' + 1 := ⟨r - 1, by omega⟩
    obtain ⟨p, hp, b, hb⟩ := hrec
    have hfa : fetch a = .ok t := by simpa using hterm
    have hc2 : (t == "SUCCEEDED" || t == "FAILED" || t == "CANCELLED") =
        true := by
      rcases ht with rfl | rfl | rfl <;> rfl
    simp only [pollLoop, hfa]
    rw [if_pos (getPaymentStatus_flag db ref t p b hp hb), if_pos hc2]
    exact ⟨(getPaymentStatus db ref t).1, by simp⟩
  | succ i ih =>
    intro db a r hrec hpend hterm hlt
    obtain ⟨r', rfl⟩ : ∃ r', r = r' + 1 := ⟨r - 1, by omega⟩
    obtain ⟨p, hp, b, hb⟩ := hrec
    have hf0 : fetch a = .ok "PENDING" := by
      have := hpend 0 (by omega)
      simpa using this
    have hstep := getPaymentStatus_pending db ref p hp
    have hpend' : ∀ j, j < i → fetch (a + 1 + j) = .ok "PENDING" := by
      intro j hj
      rw [show a + 1 + j = a + (j + 1) from by omega]
      exact hpend (j + 1) (by omega)
    have hterm' : fetch (a + 1 + i) = .ok t := by
      rw [show a + 1 + i = a + (i + 1) from by omega]
      exact hterm
    obtain ⟨db', hdb'⟩ := ih (pendingWrite db ref) (a + 1) r'
      (reconcilable_pendingWrite db ref ⟨p, hp, b, hb⟩) hpend' hterm'
      (by omega)
    simp only [pollLoop, hf0, hstep]
    simp only [if_true]
    rw [if_neg (by decide)]
    refine ⟨db', ?_⟩
    rw [hdb', range_succ_delay]

/-- A run all of whose fetches report PENDING times out with result
`none` (the PollTimeout throw), leaves the bookings untouched, and
leaves every payment row with the polled reference PENDING. -/
lemma pollLoop_all_pending (ref : String) (fetch : ℕ → FetchOutcome)
    (hall : ∀ j, fetch j = .ok "PENDING") :
    ∀ (r : ℕ) (db : DB) (a : ℕ), Reconcilable db ref → 1 ≤ r →
    (pollLoop db ref fetch a r).result = none ∧
    (pollLoop db ref fetch a r).db.bookings = db.bookings ∧
    (∀ q ∈ (pollLoop db ref fetch a r).db.payments,
      q.referenceNumber = ref → q.status = .PENDING) := by
  intro r
  induction r with
  | zero =>
    intro db a hrec h1
    omega
  | succ r' ih =>
    intro db a hrec h1
    obtain ⟨p, hp, b, hb⟩ := hrec
    have hstep := getPaymentStatus_pending db ref p hp
    simp only [pollLoop, hall a, hstep]
    simp only [if_true]
    rw [if_neg (by decide)]
    rcases Nat.eq_zero_or_pos r' with h0 | hpos
    · subst h0
      simp only [pollLoop]
      exact ⟨by trivial, by trivial, pendingWrite_payments_pending db ref⟩
    · have hrec' : Reconcilable (pendingWrite db ref) ref :=
        reconcilable_pendingWrite db ref ⟨p, hp, b, hb⟩
      obtain ⟨hres, hbk, hpay⟩ := ih (pendingWrite db ref) (a + 1) hrec'
        hpos
      exact ⟨hres, hbk, hpay⟩

/-- C9: with the default maxAttempts of 20, the poller returns the
terminal status reported by the first fetch that says SUCCEEDED, FAILED
or CANCELLED, having waited min(2^i, 30) seconds after each earlier
attempt i that reported PENDING; and when every fetch reports PENDING it
exhausts its attempts and throws PollTimeout (result none), leaving the
bookings untouched and the polled payment PENDING - not auto-cancelled. -/
theorem pollPaymentStatus_spec (db : DB) (ref : String)
    (fetch : ℕ → FetchOutcome) (k : ℕ) (t : String)
    (hrec : Reconcilable db ref) :
    defaultMaxAttempts = 20 ∧
    ((∀ j, j < k → fetch j = .ok "PENDING") → fetch k = .ok t →
      (t = "SUCCEEDED" ∨ t = "FAILED" ∨ t = "CANCELLED") →
      k < defaultMaxAttempts →
      ∃ db', pollPaymentStatus db ref fetch defaultMaxAttempts =
        ⟨db', some t, (List.range k).map (fun j => min (2 ^ j) 30)⟩) ∧
    ((∀ j, fetch j = .ok "PENDING") →
      (pollPaymentStatus db ref fetch defaultMaxAttempts).result = none ∧
      (pollPaymentStatus db ref fetch defaultMaxAttempts).db.bookings =
        db.bookings ∧
      ∀ q ∈ (pollPaymentStatus db ref fetch
          defaultMaxAttempts).db.payments,
        q.referenceNumber = ref → q.status = .PENDING) := by
  refine ⟨rfl, ?_, ?_⟩
  · intro hpend hterm ht hk
    have hpend' : ∀ j, j < k → fetch (0 + j) = .ok "PENDING" := by
      intro j hj
      rw [Nat.zero_add]
      exact hpend j hj
    have hterm' : fetch (0 + k) = .ok t := by
      rw [Nat.zero_add]
      exact hterm
    obtain ⟨db', hdb'⟩ := pollLoop_first_terminal ref fetch t ht k db 0
      defaultMaxAttempts hrec hpend' hterm' hk
    refine ⟨db', ?_⟩
    unfold pollPaymentStatus
    rw [hdb']
    congr 1
    apply List.map_congr_left
    intro j hj
    rw [Nat.zero_add]
  · intro hall
    exact pollLoop_all_pending ref fetch hall defaultMaxAttempts db 0 hrec
      (by decide)

/-- The fetch schedule of the poll witness: PENDING twice, then
SUCCEEDED. -/
def fetchTerm : ℕ → FetchOutcome :=
  fun j => if j == 2 then .ok "SUCCEEDED" else .ok "PENDING"

/-- Store polled by the witness. -/
def pollDb : DB := ⟨[exSpot], [freshBooking], [latePayment], [], []⟩

/-- C9 witness: polling a payment that reports PENDING, PENDING,
SUCCEEDED returns SUCCEEDED after waits of exactly 1 then 2 seconds. -/
theorem pollPaymentStatus_spec_witness :
    ∃ db', pollPaymentStatus pollDb "ref1" fetchTerm defaultMaxAttempts =
      ⟨db', some "SUCCEEDED", [1, 2]⟩ :=
  (pollPaymentStatus_spec pollDb "ref1" fetchTerm 2 "SUCCEEDED"
      ⟨latePayment, by decide, freshBooking, by decide⟩).2.1
    (by decide) (by decide) (Or.inl rfl) (by decide)

end AcqBe
